import Mathlib

/-!
Shallow embedding of the PhytoScan diagnostic engine (TypeScript sources:
constants.tsx, imageProcessor.ts, geminiService.ts, index.tsx, types.ts).

Conventions of the embedding:
* JavaScript numbers are modelled as `ℚ` (all arithmetic in the engine is
  exact decimal arithmetic on small values); pixel channel values are `ℕ`.
* `Number.prototype.toFixed(1)` is modelled by `toFixed1`, rounding to one
  decimal place (`Math.round` and `toFixed` both round halves up on the
  non-negative values produced here); the formatted string is modelled by
  the rational value it denotes.
* An RGBA pixel buffer (`Uint8ClampedArray`, stride 4, row-major) is
  modelled as a `List Pixel`; the loops `for (i = 0; i < data.length;
  i += 4)` become structural recursion over that list.
* Runtime-generated values (`crypto.randomUUID()`, `new
  Date().toLocaleString()`) are passed in as explicit `String` parameters.
* UI-only fields of the disease database records (`color`, `bgColor`,
  `borderColor`, `icon`) and the treatment text blocks are presentation
  metadata never consulted by the engine; they are omitted from the
  embedded `DiseaseInfo`.
-/

namespace PhytoScan

/-- The closed stage enumeration `DiseaseStage` with the five codes H0,
E1, E2, E3, N0 (types.ts, constants.tsx, index.tsx). -/
inductive DiseaseStage where
  | H0
  | E1
  | E2
  | E3
  | N0
  deriving DecidableEq, Repr

/-- One RGBA pixel of a decoded buffer (alpha is read past but never used
by any of the loops). -/
structure Pixel where
  r : ℕ
  g : ℕ
  b : ℕ
  a : ℕ
  deriving DecidableEq, Repr

/-- Leaf-tissue test of `performLocalAnalysis` (constants.tsx line 386):
`const isGreen = g > r && g > b && g > 45`. -/
def isGreen (p : Pixel) : Bool :=
  decide (p.r < p.g) && decide (p.b < p.g) && decide (45 < p.g)

/-- Necrosis test of `performLocalAnalysis` (constants.tsx line 390):
`const isNecrotic = (r > g * 0.75) || (r < 60 && g < 60 && b < 60)`. -/
def isNecrotic (p : Pixel) : Bool :=
  decide ((p.g : ℚ) * 0.75 < (p.r : ℚ)) ||
    (decide (p.r < 60) && decide (p.g < 60) && decide (p.b < 60))

/-- The counting loop of `performLocalAnalysis` (constants.tsx lines
381-393): one pass over the pixel buffer accumulating
`(leafPixels, necroticPixels)`; the necrosis test runs only inside the
`if (isGreen)` branch. -/
def localCountLoop : ℕ × ℕ → List Pixel → ℕ × ℕ
  | acc, [] => acc
  | (leaf, necr), p :: rest =>
    if isGreen p then
      localCountLoop (leaf + 1, if isNecrotic p then necr + 1 else necr) rest
    else
      localCountLoop (leaf, necr) rest

/-- Value of `leafPixels` after the loop (constants.tsx). -/
def leafPixels (img : List Pixel) : ℕ := (localCountLoop (0, 0) img).1

/-- Value of `necroticPixels` after the loop (constants.tsx). -/
def necroticPixels (img : List Pixel) : ℕ := (localCountLoop (0, 0) img).2

/-- Necrotic ratio (constants.tsx line 395):
`const ratio = leafPixels > 0 ? (necroticPixels / leafPixels) : 0`. -/
def necroticRatio (img : List Pixel) : ℚ :=
  if 0 < leafPixels img then (necroticPixels img : ℚ) / (leafPixels img : ℚ)
  else 0

/-- Stage selection of `performLocalAnalysis` (constants.tsx lines
396-411): area gate `leafPixels < 800` first, then descending
necrotic-ratio bands, default `H0`. -/
def localStage (img : List Pixel) : DiseaseStage :=
  if leafPixels img < 800 then .N0
  else if 0.22 < necroticRatio img then .E3
  else if 0.10 < necroticRatio img then .E2
  else if 0.02 < necroticRatio img then .E1
  else .H0

/-- Model of `Number.prototype.toFixed(1)`: rounding to one decimal
place. -/
def toFixed1 (q : ℚ) : ℚ := ((round (q * 10) : ℤ) : ℚ) / 10

/-- Severity of the local variant (constants.tsx line 419):
`severityScore: (ratio * 100).toFixed(1)`. -/
def localSeverityScore (img : List Pixel) : ℚ :=
  toFixed1 (necroticRatio img * 100)

/-- Lesion count of the local variant (constants.tsx line 418):
`lesionCount: Math.round(necroticPixels / 4.5)`. -/
def localLesionCount (img : List Pixel) : ℤ :=
  round ((necroticPixels img : ℚ) / 4.5)

/-- Confidence of the local variant (constants.tsx line 416): a fixed
constant per bucket, 0.4 for N0 and 0.88 otherwise. -/
def localConfidence (img : List Pixel) : ℚ :=
  if localStage img = .N0 then 0.4 else 0.88

/-- Reasoning template selected alongside the stage (constants.tsx lines
397-410). -/
def localReasoning (img : List Pixel) : String :=
  if leafPixels img < 800 then
    "Insufficient green tissue detected. Image may be obscured or too far away."
  else if 0.22 < necroticRatio img then
    "High density of necrotic pixels detected. Critical tissue failure confirmed."
  else if 0.10 < necroticRatio img then
    "Clustered necrotic regions observed. Infection is in the expansion phase."
  else if 0.02 < necroticRatio img then
    "Minor pigment disruption detected. Early lesion formation is probable."
  else
    "Optical analysis shows healthy chlorophyll density across leaf tissue."

/-- Spec-side leaf count: number of sampled pixels whose green channel
strictly exceeds red and blue and exceeds the absolute minimum. -/
def leafCountSpec (img : List Pixel) : ℕ := img.countP (fun p => isGreen p)

/-- Spec-side necrotic count: number of sampled pixels that qualify as
leaf tissue and additionally test necrotic. -/
def necroticCountSpec (img : List Pixel) : ℕ :=
  img.countP (fun p => isGreen p && isNecrotic p)

/-- Spec-side stage map (claim wording): area gate below the minimum
leaf-pixel count gives `N0` regardless of color distribution, otherwise
ascending necrotic-ratio bands `> 0.22 → E3`, `> 0.10 → E2`,
`> 0.02 → E1`, else `H0`. -/
def stageOfCounts (leaf necr : ℕ) : DiseaseStage :=
  if leaf < 800 then .N0
  else if (0.22 : ℚ) < (necr : ℚ) / (leaf : ℚ) then .E3
  else if (0.10 : ℚ) < (necr : ℚ) / (leaf : ℚ) then .E2
  else if (0.02 : ℚ) < (necr : ℚ) / (leaf : ℚ) then .E1
  else .H0

lemma localCountLoop_eq (img : List Pixel) :
    ∀ leaf necr : ℕ,
      localCountLoop (leaf, necr) img =
        (leaf + leafCountSpec img, necr + necroticCountSpec img) := by
  induction img with
  | nil =>
    intro leaf necr
    simp [localCountLoop, leafCountSpec, necroticCountSpec]
  | cons p rest ih =>
    intro leaf necr
    by_cases hg : isGreen p
    · by_cases hn : isNecrotic p
      · simp [localCountLoop, hg, hn, leafCountSpec, necroticCountSpec,
          List.countP_cons, ih]
        omega
      · simp [localCountLoop, hg, hn, leafCountSpec, necroticCountSpec,
          List.countP_cons, ih]
        omega
    · simp [localCountLoop, hg, leafCountSpec, necroticCountSpec,
        List.countP_cons, ih]

lemma leafPixels_eq (img : List Pixel) : leafPixels img = leafCountSpec img := by
  unfold leafPixels
  rw [localCountLoop_eq img 0 0]
  simp

lemma necroticPixels_eq (img : List Pixel) :
    necroticPixels img = necroticCountSpec img := by
  unfold necroticPixels
  rw [localCountLoop_eq img 0 0]
  simp

/-- Disease knowledge-base record (constants.tsx, index.tsx): the fields
of `DiseaseInfo` consulted by the engine. Presentation metadata (`color`,
`bgColor`, `borderColor`, `icon`) and the treatment/interpretation text
blocks are omitted: the engine never reads them. -/
structure DiseaseInfo where
  name : String
  severity : ℕ
  description : String
  symptoms : List String
  deriving DecidableEq, Repr

/-- Entry H0 of `DISEASE_DATABASE` (constants.tsx lines 6-34). -/
def h0Info : DiseaseInfo :=
  { name := "Healthy Plant"
    severity := 0
    description := "Fully green leaf with no visible lesions or disease symptoms."
    symptoms := ["Vibrant green leaves", "Stems firm and upright",
      "No spots, wilting or discoloration", "Uniform growth pattern",
      "Healthy leaf texture"] }

/-- Entry E1 of `DISEASE_DATABASE` (constants.tsx lines 35-84). -/
def e1Info : DiseaseInfo :=
  { name := "Early Infection (Cercospora Leaf Spot)"
    severity := 1
    description := "Initial fungal penetration with 1-3mm purple/brown dots and yellow halos."
    symptoms := ["Small purple/brown dots (1-3mm diameter)",
      "Yellow halo around each lesion", "Light green patches on leaves",
      "Leaf edges may curl slightly", "Tips slightly pale",
      "Growth slower than usual", "Slightly leaf dropping in hot periods"] }

/-- Entry E2 of `DISEASE_DATABASE` (constants.tsx lines 85-137). -/
def e2Info : DiseaseInfo :=
  { name := "Mid Infection (Cercospora Leaf Spot)"
    severity := 2
    description := "Sporulation phase with expanding lesions (5-12mm), turning brown-grey."
    symptoms := ["Lesions expand to 5-12mm diameter",
      "Color changes from purple to brown-grey",
      "Yellowing on older leaves (chlorosis)", "Turgor loss on leaves",
      "Wilting that doesn\x27t recover after watering",
      "Edges turn brown and brittle", "Stems become thin or weak",
      "Stunted growth (50% slower)", "Multiple lesions per leaf (3-8)"] }

/-- Entry E3 of `DISEASE_DATABASE` (constants.tsx lines 138-195). -/
def e3Info : DiseaseInfo :=
  { name := "Late/Severe Infection (Cercospora Leaf Spot)"
    severity := 3
    description := "Tissue death with large necrotic patches (>12mm), leaf yellowing, and defoliation."
    symptoms := ["Large necrotic patches (>12mm, up to 30mm)",
      "Severe leaf yellowing throughout plant",
      "Significant defoliation (>40% leaf loss)",
      "Crispy brown edges, leaf curling",
      "Stems collapse or severe yellowing",
      "Multiple coalescing lesions per leaf (8+)",
      "Plant height stunted (<50% normal)",
      "Root may rot if overwatered", "Severe wilting even after watering",
      "Plant may not recover"] }

/-- Entry N0 of `DISEASE_DATABASE` (constants.tsx lines 196-241). -/
def n0Info : DiseaseInfo :=
  { name := "Non-Disease / Image Quality Issue"
    severity := 0
    description := "Image contains shadows, dirt, water droplets, or quality issues affecting accurate analysis."
    symptoms := ["Heavy shadows obscuring leaf details",
      "Unclear or blurry plant features",
      "Dirt, mud, or debris on leaf surface",
      "Water droplets causing reflections",
      "Insufficient or uneven lighting", "Leaf out of focus",
      "Too far from subject", "Motion blur present"] }

/-- The exported `DISEASE_DATABASE` of constants.tsx (lines 5-242),
modelled as an association list from stage-code strings to records; a
JavaScript object property access `DISEASE_DATABASE[stage]` becomes
`List.lookup` on this list. -/
def DISEASE_DATABASE : List (String × DiseaseInfo) :=
  [("H0", h0Info), ("E1", e1Info), ("E2", e2Info), ("E3", e3Info),
   ("N0", n0Info)]

/-- Knowledge-base lookup with fallback, the expression
`DISEASE_DATABASE[stage] || DISEASE_DATABASE[N0-key]` of
index.tsx line 263 and imageProcessor.ts line 150 (run through the
App component): a present entry is a truthy object, a missing key yields
undefined and falls through to the N0 entry. -/
def lookupDisease (stage : String) : DiseaseInfo :=
  (DISEASE_DATABASE.lookup stage).getD n0Info

/-- Disease database of the self-contained local variant (constants.tsx
lines 292-362), keyed by the `DiseaseStage` enumeration itself (that
variant indexes it only with values already of type `DiseaseStage`, so no
fallback is involved). -/
def localDiseaseDatabase : DiseaseStage → DiseaseInfo
  | .H0 =>
    { name := "Healthy Kangkung"
      severity := 0
      description := "Vibrant green foliage with no signs of fungal lesions or nutrient stress."
      symptoms := ["Uniform green pigmentation", "Smooth leaf texture",
        "Strong turgor pressure"] }
  | .E1 =>
    { name := "Early Cercospora"
      severity := 1
      description := "Initial fungal penetration. Small 1-3mm purple/brown specks starting to form."
      symptoms := ["Small purple dots", "Occasional yellow halos"] }
  | .E2 =>
    { name := "Active Infection"
      severity := 2
      description := "Expanding lesions (5-12mm) turning grey-brown. Risk of spore spread."
      symptoms := ["Large brown lesions", "Grey centers", "Leaf yellowing"] }
  | .E3 =>
    { name := "Severe Necrosis"
      severity := 3
      description := "Extensive tissue death. Significant photosynthesis loss. Risk of total crop failure."
      symptoms := ["Coalescing lesions", "Severe defoliation",
        "Stem weakening"] }
  | .N0 =>
    { name := "Non-Diagnostic Input"
      severity := 0
      description := "Unable to detect a clear Kangkung leaf structure in the provided image."
      symptoms := ["Image too blurry", "Heavy shadows", "Too far from plant"] }

/-- The `AnalysisResult` assembled by the self-contained local variant
(constants.tsx lines 272-281 and 413-422). -/
structure LocalAnalysisResult where
  id : String
  stage : DiseaseStage
  confidence : ℚ
  disease : DiseaseInfo
  lesionCount : ℤ
  severityScore : ℚ
  timestamp : String
  reasoning : String
  deriving DecidableEq, Repr

/-- The result object built by `performLocalAnalysis` (constants.tsx
lines 413-422); `uuid` and `ts` stand for the runtime values of
`crypto.randomUUID()` and `new Date().toLocaleString()`. -/
def performLocalAnalysis (uuid ts : String) (img : List Pixel) :
    LocalAnalysisResult :=
  { id := uuid
    stage := localStage img
    confidence := localConfidence img
    disease := localDiseaseDatabase (localStage img)
    lesionCount := localLesionCount img
    severityScore := localSeverityScore img
    timestamp := ts
    reasoning := localReasoning img }

lemma round_mono_le {a b : ℚ} (h : a ≤ b) : round a ≤ round b := by
  rw [round_eq, round_eq]
  exact Int.floor_mono (by linarith)

lemma toFixed1_mono {a b : ℚ} (h : a ≤ b) : toFixed1 a ≤ toFixed1 b := by
  unfold toFixed1
  have h1 := round_mono_le (show a * 10 ≤ b * 10 by linarith)
  have h2 : ((round (a * 10) : ℤ) : ℚ) ≤ ((round (b * 10) : ℤ) : ℚ) := by
    exact_mod_cast h1
  linarith

lemma toFixed1_hundred : toFixed1 (100 : ℚ) = 100 := by
  unfold toFixed1
  rw [show ((100 : ℚ) * 10) = ((1000 : ℤ) : ℚ) by norm_num, round_intCast]
  norm_num

lemma toFixed1_zero : toFixed1 (0 : ℚ) = 0 := by
  unfold toFixed1
  rw [show ((0 : ℚ) * 10) = ((0 : ℤ) : ℚ) by norm_num, round_intCast]
  norm_num

/-- C1. The Local Heuristic Classifier maps the downsampled grid to a
stage by the area gate and ascending necrotic-ratio bands: whenever fewer
than 800 of the sampled pixels qualify as leaf tissue (green strictly
exceeding red and blue and exceeding the absolute minimum 45) the stage
is N0 regardless of color distribution, and otherwise necroticRatio
above 0.22 yields E3, else above 0.10 yields E2, else above 0.02 yields
E1, else H0; in particular counts of 1000 leaf pixels and 150 necrotic
pixels (ratio 0.15) yield E2. -/
theorem local_classifier_stage_bands (uuid ts : String) (img : List Pixel) :
    (performLocalAnalysis uuid ts img).stage =
      stageOfCounts (leafCountSpec img) (necroticCountSpec img) ∧
    stageOfCounts 1000 150 = DiseaseStage.E2 := by
  constructor
  · show localStage img = _
    unfold localStage stageOfCounts necroticRatio
    rw [leafPixels_eq, necroticPixels_eq]
    by_cases h : leafCountSpec img < 800
    · simp [h]
    · have hpos : 0 < leafCountSpec img := by omega
      simp [h, hpos]
  · norm_num [stageOfCounts]

/-- C10. In the Local Heuristic Classifier a pixel is tested for necrosis
only when it already qualified as leaf tissue, so necroticPixelCount
never exceeds leafPixelCount; consequently the necrotic ratio lies in
[0, 1] (it is 0 when no leaf pixels were found), the reported severity
score (ratio times 100, one decimal) never exceeds 100, and the reported
lesion count (necroticPixels / 4.5, rounded) is non-negative. -/
theorem local_classifier_invariants (uuid ts : String) (img : List Pixel) :
    necroticPixels img ≤ leafPixels img ∧
    0 ≤ necroticRatio img ∧ necroticRatio img ≤ 1 ∧
    (performLocalAnalysis uuid ts img).severityScore ≤ 100 ∧
    0 ≤ (performLocalAnalysis uuid ts img).lesionCount := by
  have hle : necroticPixels img ≤ leafPixels img := by
    rw [leafPixels_eq, necroticPixels_eq]
    apply List.countP_mono_left
    intro x _ hx
    simp only [Bool.and_eq_true] at hx
    exact hx.1
  have hr0 : 0 ≤ necroticRatio img := by
    unfold necroticRatio
    by_cases h : 0 < leafPixels img
    · simp only [h, if_true]
      positivity
    · simp [h]
  have hr1 : necroticRatio img ≤ 1 := by
    unfold necroticRatio
    by_cases h : 0 < leafPixels img
    · simp only [h, if_true]
      rw [div_le_one (by exact_mod_cast h)]
      exact_mod_cast hle
    · simp [h]
  refine ⟨hle, hr0, hr1, ?_, ?_⟩
  · show localSeverityScore img ≤ 100
    unfold localSeverityScore
    calc toFixed1 (necroticRatio img * 100) ≤ toFixed1 100 :=
          toFixed1_mono (by linarith)
      _ = 100 := toFixed1_hundred
  · show (0 : ℤ) ≤ localLesionCount img
    unfold localLesionCount
    have : (0 : ℚ) ≤ (necroticPixels img : ℚ) / 4.5 := by positivity
    calc (0 : ℤ) = round (0 : ℚ) := by rw [round_zero]
      _ ≤ round ((necroticPixels img : ℚ) / 4.5) := round_mono_le this

/-- Image quality record (types.ts lines 41-49); `resolution` is the
(width, height) pair. -/
structure ImageQuality where
  avgBrightness : ℚ
  isTooDark : Bool
  isTooBright : Bool
  hasShadows : Bool
  hasOverexposure : Bool
  resolution : ℕ × ℕ
  isLowRes : Bool
  deriving DecidableEq, Repr

/-- Per-pixel brightness, the unweighted mean of R, G, B
(imageProcessor.ts line 24). -/
def brightness (p : Pixel) : ℚ := ((p.r : ℚ) + (p.g : ℚ) + (p.b : ℚ)) / 3

/-- The single pass of `analyzeImageQuality` (imageProcessor.ts lines
19-28) accumulating `(darkPixels, brightPixels, totalBrightness)`. -/
def qualityLoop : ℕ × ℕ × ℚ → List Pixel → ℕ × ℕ × ℚ
  | acc, [] => acc
  | (dark, bright, total), p :: rest =>
    qualityLoop
      (if brightness p < 50 then dark + 1 else dark,
       if 200 < brightness p then bright + 1 else bright,
       total + brightness p) rest

/-- The quality record produced by `analyzeImageQuality`
(imageProcessor.ts lines 30-44); `data.length / 4` of the flat RGBA array
is the pixel count, here `data.length` of the pixel list. -/
def analyzeImageQuality (w h : ℕ) (data : List Pixel) : ImageQuality :=
  let dark := (qualityLoop (0, 0, 0) data).1
  let bright := (qualityLoop (0, 0, 0) data).2.1
  let totalBrightness := (qualityLoop (0, 0, 0) data).2.2
  let avgBrightness := totalBrightness / (data.length : ℚ)
  let darkRatio := (dark : ℚ) / (data.length : ℚ)
  let brightRatio := (bright : ℚ) / (data.length : ℚ)
  { avgBrightness := avgBrightness
    isTooDark := decide (avgBrightness < 80)
    isTooBright := decide (200 < avgBrightness)
    hasShadows := decide ((0.3 : ℚ) < darkRatio)
    hasOverexposure := decide ((0.3 : ℚ) < brightRatio)
    resolution := (w, h)
    isLowRes := decide (w < 400) || decide (h < 400) }

/-- Spec-side total brightness: the sum of per-pixel brightness values. -/
def totalBrightnessSpec (data : List Pixel) : ℚ := (data.map brightness).sum

/-- Spec-side count of pixels with brightness below 50. -/
def darkCountSpec (data : List Pixel) : ℕ :=
  data.countP (fun p => decide (brightness p < 50))

/-- Spec-side count of pixels with brightness above 200. -/
def brightCountSpec (data : List Pixel) : ℕ :=
  data.countP (fun p => decide (200 < brightness p))

lemma qualityLoop_eq (data : List Pixel) :
    ∀ (dark bright : ℕ) (total : ℚ),
      qualityLoop (dark, bright, total) data =
        (dark + darkCountSpec data, bright + brightCountSpec data,
         total + totalBrightnessSpec data) := by
  induction data with
  | nil =>
    intro dark bright total
    simp [qualityLoop, darkCountSpec, brightCountSpec, totalBrightnessSpec]
  | cons p rest ih =>
    intro dark bright total
    by_cases h1 : brightness p < 50
    · by_cases h2 : 200 < brightness p
      · simp [qualityLoop, h1, h2, darkCountSpec, brightCountSpec,
          totalBrightnessSpec, List.countP_cons, ih]
        constructor
        · omega
        · constructor
          · omega
          · ring
      · simp [qualityLoop, h1, h2, darkCountSpec, brightCountSpec,
          totalBrightnessSpec, List.countP_cons, ih]
        constructor
        · omega
        · ring
    · by_cases h2 : 200 < brightness p
      · simp [qualityLoop, h1, h2, darkCountSpec, brightCountSpec,
          totalBrightnessSpec, List.countP_cons, ih]
        constructor
        · omega
        · ring
      · simp [qualityLoop, h1, h2, darkCountSpec, brightCountSpec,
          totalBrightnessSpec, List.countP_cons, ih]
        ring

/-- C8. The Image Quality Analyzer computes per-pixel brightness as the
unweighted mean of R, G, B and raises its flags exactly at the specified
thresholds: isTooDark iff the average brightness is below 80, isTooBright
iff it exceeds 200, hasShadows iff the fraction of pixels with brightness
below 50 exceeds 0.3, hasOverexposure iff the fraction with brightness
above 200 exceeds 0.3, and isLowRes iff either dimension is below 400;
the resolution is reported as given. Stated for non-empty buffers, where
the average is defined; the analyzer is a pure function of its input. -/
theorem image_quality_flags (w h : ℕ) (data : List Pixel)
    (hne : 0 < data.length) :
    (analyzeImageQuality w h data).avgBrightness =
      totalBrightnessSpec data / (data.length : ℚ) ∧
    ((analyzeImageQuality w h data).isTooDark = true ↔
      totalBrightnessSpec data / (data.length : ℚ) < 80) ∧
    ((analyzeImageQuality w h data).isTooBright = true ↔
      200 < totalBrightnessSpec data / (data.length : ℚ)) ∧
    ((analyzeImageQuality w h data).hasShadows = true ↔
      (0.3 : ℚ) < (darkCountSpec data : ℚ) / (data.length : ℚ)) ∧
    ((analyzeImageQuality w h data).hasOverexposure = true ↔
      (0.3 : ℚ) < (brightCountSpec data : ℚ) / (data.length : ℚ)) ∧
    ((analyzeImageQuality w h data).isLowRes = true ↔ w < 400 ∨ h < 400) ∧
    (analyzeImageQuality w h data).resolution = (w, h) := by
  have hq := qualityLoop_eq data 0 0 0
  have _ := hne
  unfold analyzeImageQuality
  rw [hq]
  simp [decide_eq_true_iff]

/-- A concrete two-pixel buffer for evaluating the quality analyzer. -/
def samplePixels : List Pixel :=
  [{ r := 10, g := 10, b := 10, a := 255 },
   { r := 250, g := 250, b := 250, a := 255 }]

/-- Witness for C8 at a concrete 500 by 300 two-pixel buffer. -/
theorem image_quality_flags_witness :
    (analyzeImageQuality 500 300 samplePixels).avgBrightness =
      totalBrightnessSpec samplePixels / (samplePixels.length : ℚ) ∧
    (analyzeImageQuality 500 300 samplePixels).isLowRes = true := by
  have hthm := image_quality_flags 500 300 samplePixels (by decide)
  exact ⟨hthm.1, hthm.2.2.2.2.2.1.mpr (Or.inr (by norm_num))⟩

/-- JavaScript truthiness fallback `v || 0` on an optional number: an
absent property and the number 0 are both falsy and give 0, any other
number is returned unchanged. -/
def jsOrZero (v : Option ℚ) : ℚ :=
  match v with
  | none => 0
  | some q => if q = 0 then 0 else q

/-- The `severityScores` record literal of `calculateSeverity`
(imageProcessor.ts lines 51-57), as a map from the stage-code string to
the per-stage capped multiplicative term; an unrecognized key is an
absent property. -/
def severityScores (lesionCount avgLesionSize : ℚ) : String → Option ℚ :=
  fun s =>
    if s = "H0" then some 0
    else if s = "E1" then some (min (lesionCount * avgLesionSize * 0.2) 15)
    else if s = "E2" then some (min (lesionCount * avgLesionSize * 0.8) 45)
    else if s = "E3" then some (min (lesionCount * avgLesionSize * 2.0) 100)
    else if s = "N0" then some 0
    else none

/-- Severity formula family (a), `calculateSeverity` (imageProcessor.ts
lines 50-60): per-stage cap, then `Math.min(severityScores[stage] || 0,
100).toFixed(1)`. -/
def calculateSeverity (stage : String) (lesionCount avgLesionSize : ℚ) : ℚ :=
  toFixed1 (min (jsOrZero (severityScores lesionCount avgLesionSize stage)) 100)

/-- The `base` record of `calculateSeverityScore` (index.tsx line 191). -/
def severityBase : String → Option ℚ := fun s =>
  if s = "H0" then some 0
  else if s = "E1" then some 15
  else if s = "E2" then some 50
  else if s = "E3" then some 100
  else if s = "N0" then some 0
  else none

/-- Severity formula family (b), `calculateSeverityScore` (index.tsx
lines 190-195): stage base offset plus the shared linear modifier
`lesionCount * avgSize / 10`, clamped to 100 and formatted to one
decimal. -/
def calculateSeverityScore (stage : String) (lesionCount avgSize : ℚ) : ℚ :=
  toFixed1 (min (jsOrZero (severityBase stage) + lesionCount * avgSize / 10) 100)

lemma jsOrZero_some (q : ℚ) : jsOrZero (some q) = q := by
  show (if q = 0 then 0 else q) = q
  split
  · simp_all
  · rfl

lemma toFixed1_nonneg {q : ℚ} (h : 0 ≤ q) : 0 ≤ toFixed1 q := by
  calc (0 : ℚ) = toFixed1 0 := toFixed1_zero.symm
    _ ≤ toFixed1 q := toFixed1_mono h

lemma toFixed1_le_hundred {q : ℚ} (h : q ≤ 100) : toFixed1 q ≤ 100 := by
  calc toFixed1 q ≤ toFixed1 100 := toFixed1_mono h
    _ = 100 := toFixed1_hundred

/-- Counterexample to C4 as stated: family (a) applied to stage E1 with a
negative lesion count returns a negative score, outside [0, 100]. -/
theorem severity_scorer_negative_counterexample :
    calculateSeverity "E1" (-1) 100 < 0 := by
  have h1 : severityScores (-1) 100 "E1" = some (-20) := by
    unfold severityScores
    rw [if_neg (by decide), if_pos rfl]
    norm_num
  unfold calculateSeverity
  rw [h1, jsOrZero_some, show min ((-20 : ℚ)) 100 = -20 by norm_num]
  unfold toFixed1
  rw [show ((-20 : ℚ) * 10) = ((-200 : ℤ) : ℚ) by norm_num, round_intCast]
  norm_num

/-- C4 (amended: restricted to non-negative lesion count and average
lesion size, the domain the data model specifies). For every stage code
both severity formula families return a value in [0, 100], and stages H0
and N0 with lesionCount = 0 return exactly 0.0. -/
theorem severity_scorer_range (stage : String) (lc als : ℚ)
    (hlc : 0 ≤ lc) (hals : 0 ≤ als) :
    (0 ≤ calculateSeverity stage lc als ∧
      calculateSeverity stage lc als ≤ 100) ∧
    (0 ≤ calculateSeverityScore stage lc als ∧
      calculateSeverityScore stage lc als ≤ 100) ∧
    calculateSeverity "H0" 0 als = 0 ∧ calculateSeverity "N0" 0 als = 0 ∧
    calculateSeverityScore "H0" 0 als = 0 ∧
    calculateSeverityScore "N0" 0 als = 0 := by
  have hprod : 0 ≤ lc * als := mul_nonneg hlc hals
  have ha0 : 0 ≤ jsOrZero (severityScores lc als stage) := by
    unfold severityScores
    split_ifs
    · simp [jsOrZero]
    · rw [jsOrZero_some]
      exact le_min (by nlinarith) (by norm_num)
    · rw [jsOrZero_some]
      exact le_min (by nlinarith) (by norm_num)
    · rw [jsOrZero_some]
      exact le_min (by nlinarith) (by norm_num)
    · simp [jsOrZero]
    · simp [jsOrZero]
  have hb0 : 0 ≤ jsOrZero (severityBase stage) := by
    unfold severityBase
    split_ifs <;> simp [jsOrZero]
  have hmod : 0 ≤ lc * als / 10 := div_nonneg hprod (by norm_num)
  have hH0a : severityScores 0 als "H0" = some 0 := by
    unfold severityScores
    rw [if_pos rfl]
  have hN0a : severityScores 0 als "N0" = some 0 := by
    unfold severityScores
    rw [if_neg (by decide), if_neg (by decide), if_neg (by decide),
      if_neg (by decide), if_pos rfl]
  have hH0b : severityBase "H0" = some 0 := by
    unfold severityBase
    rw [if_pos rfl]
  have hN0b : severityBase "N0" = some 0 := by
    unfold severityBase
    rw [if_neg (by decide), if_neg (by decide), if_neg (by decide),
      if_neg (by decide), if_pos rfl]
  refine ⟨⟨?_, ?_⟩, ⟨?_, ?_⟩, ?_, ?_, ?_, ?_⟩
  · exact toFixed1_nonneg (le_min ha0 (by norm_num))
  · exact toFixed1_le_hundred (min_le_right _ _)
  · exact toFixed1_nonneg (le_min (by linarith) (by norm_num))
  · exact toFixed1_le_hundred (min_le_right _ _)
  · unfold calculateSeverity
    rw [hH0a, jsOrZero_some, show min (0 : ℚ) 100 = 0 by norm_num]
    exact toFixed1_zero
  · unfold calculateSeverity
    rw [hN0a, jsOrZero_some, show min (0 : ℚ) 100 = 0 by norm_num]
    exact toFixed1_zero
  · unfold calculateSeverityScore
    rw [hH0b, jsOrZero_some,
      show (0 : ℚ) + 0 * als / 10 = 0 by ring,
      show min (0 : ℚ) 100 = 0 by norm_num]
    exact toFixed1_zero
  · unfold calculateSeverityScore
    rw [hN0b, jsOrZero_some,
      show (0 : ℚ) + 0 * als / 10 = 0 by ring,
      show min (0 : ℚ) 100 = 0 by norm_num]
    exact toFixed1_zero

/-- Witness for the amended C4 at stage E2 with lesionCount 3 and average
lesion size 2. -/
theorem severity_scorer_range_witness :
    (0 ≤ calculateSeverity "E2" 3 2 ∧ calculateSeverity "E2" 3 2 ≤ 100) ∧
    calculateSeverityScore "N0" 0 2 = 0 := by
  have h := severity_scorer_range "E2" 3 2 (by norm_num) (by norm_num)
  exact ⟨h.1, h.2.2.2.2.2⟩

/-- C5. For every fixed stage code both severity formula families are
monotone (non-decreasing) in lesion count and average lesion size on
non-negative inputs. -/
theorem severity_scorer_monotone (stage : String) (lc lc2 als als2 : ℚ)
    (hlc : 0 ≤ lc) (hlc2 : lc ≤ lc2) (hals : 0 ≤ als) (hals2 : als ≤ als2) :
    calculateSeverity stage lc als ≤ calculateSeverity stage lc2 als2 ∧
    calculateSeverityScore stage lc als ≤
      calculateSeverityScore stage lc2 als2 := by
  have hprod : lc * als ≤ lc2 * als2 :=
    mul_le_mul hlc2 hals2 hals (le_trans hlc hlc2)
  constructor
  · apply toFixed1_mono
    apply min_le_min _ le_rfl
    unfold severityScores
    split_ifs
    · exact le_rfl
    · rw [jsOrZero_some, jsOrZero_some]
      exact min_le_min (by nlinarith) le_rfl
    · rw [jsOrZero_some, jsOrZero_some]
      exact min_le_min (by nlinarith) le_rfl
    · rw [jsOrZero_some, jsOrZero_some]
      exact min_le_min (by nlinarith) le_rfl
    · exact le_rfl
    · exact le_rfl
  · apply toFixed1_mono
    apply min_le_min _ le_rfl
    have : lc * als / 10 ≤ lc2 * als2 / 10 := by linarith
    exact add_le_add le_rfl this

/-- Witness for C5 at stage E3 with inputs (1, 2) against (2, 3). -/
theorem severity_scorer_monotone_witness :
    calculateSeverity "E3" 1 2 ≤ calculateSeverity "E3" 2 3 ∧
    calculateSeverityScore "E3" 1 2 ≤ calculateSeverityScore "E3" 2 3 :=
  severity_scorer_monotone "E3" 1 2 2 3 (by norm_num) (by norm_num)
    (by norm_num) (by norm_num)

/-- C9. In the remote stage-base severity formula, every E3 diagnosis
scores exactly 100.0 for all non-negative lesion counts and average
lesion sizes: the base offset 100 plus a non-negative modifier is
clamped back to 100, so for E3 the score carries no information beyond
the stage. -/
theorem remote_e3_severity_constant (lc als : ℚ)
    (hlc : 0 ≤ lc) (hals : 0 ≤ als) :
    calculateSeverityScore "E3" lc als = 100 := by
  have hb : severityBase "E3" = some 100 := by
    unfold severityBase
    rw [if_neg (by decide), if_neg (by decide), if_neg (by decide),
      if_pos rfl]
  have hmod : 0 ≤ lc * als / 10 :=
    div_nonneg (mul_nonneg hlc hals) (by norm_num)
  unfold calculateSeverityScore
  rw [hb, jsOrZero_some, min_eq_right (by linarith)]
  exact toFixed1_hundred

/-- Witness for C9 with lesionCount 5 and average lesion size 3. -/
theorem remote_e3_severity_constant_witness :
    calculateSeverityScore "E3" 5 3 = 100 :=
  remote_e3_severity_constant 5 3 (by norm_num) (by norm_num)

/-- The remote-variant `AnalysisResult` (types.ts lines 51-71, index.tsx
lines 41-53); the stage arrives from the oracle as a string (the source
cast `data.stage as DiseaseStage` is a compile-time assertion only). The
`qualityIssues` field is always set to null by the source and omitted
here. -/
structure AnalysisResult where
  id : String
  stage : String
  confidence : ℚ
  disease : DiseaseInfo
  lesionCount : ℚ
  avgLesionSize : ℚ
  severityScore : ℚ
  timestamp : String
  reasoningForFarmer : String
  detectedSymptoms : List String
  visualEvidenceRegions : String
  deriving DecidableEq, Repr

/-- The remote-variant `HistoryItem` projection (types.ts lines 73-82). -/
structure HistoryItem where
  id : String
  timestamp : String
  stage : String
  diseaseName : String
  confidence : ℚ
  severityScore : ℚ
  deriving DecidableEq, Repr

/-- The `newItem` projection built by `saveToHistory` (imageProcessor.ts
App lines 90-97, index.tsx lines 216-223). -/
def toHistoryItem (res : AnalysisResult) : HistoryItem :=
  { id := res.id
    timestamp := res.timestamp
    stage := res.stage
    diseaseName := res.disease.name
    confidence := res.confidence
    severityScore := res.severityScore }

/-- Ledger append of the v2 App (imageProcessor.ts App lines 89-101):
`const updated = [newItem, ...history].slice(0, 20)`. -/
def saveToHistory_v2 (res : AnalysisResult) (history : List HistoryItem) :
    List HistoryItem :=
  (toHistoryItem res :: history).take 20

/-- Ledger append of the v3 App (index.tsx lines 215-227), capacity 10:
`const updated = [newItem, ...history].slice(0, 10)`. -/
def saveToHistory_v3 (res : AnalysisResult) (history : List HistoryItem) :
    List HistoryItem :=
  (toHistoryItem res :: history).take 10

/-- Sequential appends of a batch of results into the v2 ledger, oldest
first. -/
def appendAll_v2 (rs : List AnalysisResult) (history : List HistoryItem) :
    List HistoryItem :=
  rs.foldl (fun acc r => saveToHistory_v2 r acc) history

lemma take_append_take (n : ℕ) (a b : List HistoryItem) :
    (a ++ b.take n).take n = (a ++ b).take n := by
  rw [List.take_append_eq_append_take, List.take_append_eq_append_take,
    List.take_take, Nat.min_eq_left (Nat.sub_le n a.length)]

lemma appendAll_v2_eq (rs : List AnalysisResult) :
    ∀ history : List HistoryItem, rs ≠ [] →
      appendAll_v2 rs history =
        ((rs.map toHistoryItem).reverse ++ history).take 20 := by
  induction rs with
  | nil =>
    intro history hne
    exact absurd rfl hne
  | cons r rest ih =>
    intro history _
    cases rest with
    | nil =>
      simp [appendAll_v2, saveToHistory_v2]
    | cons r2 rest2 =>
      have hstep : appendAll_v2 (r :: r2 :: rest2) history =
          appendAll_v2 (r2 :: rest2) (saveToHistory_v2 r history) := rfl
      rw [hstep, ih (saveToHistory_v2 r history) (by simp)]
      show ((List.map toHistoryItem (r2 :: rest2)).reverse ++
          (toHistoryItem r :: history).take 20).take 20 = _
      rw [take_append_take]
      simp [List.append_assoc]

/-- C2. The v2 History Ledger never exceeds its capacity of 20: append
places the projection of the new result at index 0 (newest first),
keeps the retained items in their previous relative order (the result is
a prefix of the new item consed onto the old state), and truncates to
the first 20 items; appending 25 results to an empty ledger leaves
exactly 20 items, namely the projections of the last 20 appends newest
first, with the 5 oldest evicted. -/
theorem history_ledger_capacity (history : List HistoryItem)
    (res : AnalysisResult) (rs : List AnalysisResult)
    (hlen : history.length ≤ 20) (hrs : rs.length = 25) :
    (saveToHistory_v2 res history).length ≤ 20 ∧
    (saveToHistory_v2 res history).head? = some (toHistoryItem res) ∧
    saveToHistory_v2 res history <+: toHistoryItem res :: history ∧
    appendAll_v2 rs [] = ((rs.map toHistoryItem).reverse).take 20 ∧
    (appendAll_v2 rs []).length = 20 := by
  have _ := hlen
  have hne : rs ≠ [] := by
    intro h
    rw [h] at hrs
    simp at hrs
  have happ : appendAll_v2 rs [] = ((rs.map toHistoryItem).reverse).take 20 := by
    rw [appendAll_v2_eq rs [] hne]
    simp
  refine ⟨?_, ?_, ?_, happ, ?_⟩
  · simp [saveToHistory_v2]
  · simp [saveToHistory_v2]
  · exact List.take_prefix 20 _
  · rw [happ]
    simp [hrs]

/-- A concrete analysis result for ledger witnesses. -/
def sampleResult : AnalysisResult :=
  { id := "id-1"
    stage := "E2"
    confidence := 0.9
    disease := e2Info
    lesionCount := 4
    avgLesionSize := 6
    severityScore := 45
    timestamp := "2026-01-01"
    reasoningForFarmer := "sample"
    detectedSymptoms := ["Large brown lesions"]
    visualEvidenceRegions := "center" }

/-- Witness for C2: one append to the empty ledger and a batch of 25
appends. -/
theorem history_ledger_capacity_witness :
    (saveToHistory_v2 sampleResult []).head? =
      some (toHistoryItem sampleResult) ∧
    (appendAll_v2 (List.replicate 25 sampleResult) []).length = 20 := by
  have h := history_ledger_capacity [] sampleResult
    (List.replicate 25 sampleResult) (by simp) (by simp)
  exact ⟨h.2.1, h.2.2.2.2⟩

/-- Classifier error kinds of the spec: the oracle being unreachable and
a response failing required-field validation. -/
inductive ClassificationError where
  | oracleUnavailable
  | invalidResponseSchema
  deriving DecidableEq, Repr

/-- A raw oracle response before required-field validation: each of the
seven fields of the `responseSchema` declared in `analyzePlantImage`
(index.tsx lines 168-181) may be absent. -/
structure OracleResponse where
  stage : Option String
  confidence : Option ℚ
  lesionCount : Option ℚ
  avgLesionSize : Option ℚ
  reasoningForFarmer : Option String
  detectedSymptoms : Option (List String)
  visualEvidenceRegions : Option String
  deriving DecidableEq, Repr

/-- A validated oracle payload with every required field present. -/
structure OracleData where
  stage : String
  confidence : ℚ
  lesionCount : ℚ
  avgLesionSize : ℚ
  reasoningForFarmer : String
  detectedSymptoms : List String
  visualEvidenceRegions : String
  deriving DecidableEq, Repr

/-- Modelled from the spec: enforcement of the `required` field list
declared in the `responseSchema` of `analyzePlantImage` (index.tsx line
179; geminiService.ts line 56 adds `explanation`). The source declares
the schema and the GenAI SDK raises on violations, surfaced by the spec
as the InvalidResponseSchema classification error; that enforcement code
is not part of this repository, so it is modelled here: a response
missing any required field is rejected, otherwise the payload is
returned. -/
def validateOracleResponse (r : OracleResponse) :
    Except ClassificationError OracleData :=
  match r.stage, r.confidence, r.lesionCount, r.avgLesionSize,
      r.reasoningForFarmer, r.detectedSymptoms, r.visualEvidenceRegions with
  | some s, some c, some lc, some als, some rf, some ds, some ver =>
    Except.ok ⟨s, c, lc, als, rf, ds, ver⟩
  | _, _, _, _, _, _, _ =>
    Except.error ClassificationError.invalidResponseSchema

/-- The `finalResult` object assembled by `handleAnalysis` (index.tsx
lines 259-271) from a validated oracle payload. -/
def mkRemoteResult (uuid ts : String) (d : OracleData) : AnalysisResult :=
  { id := uuid
    stage := d.stage
    confidence := d.confidence
    disease := lookupDisease d.stage
    lesionCount := d.lesionCount
    avgLesionSize := d.avgLesionSize
    severityScore := calculateSeverityScore d.stage d.lesionCount d.avgLesionSize
    timestamp := ts
    reasoningForFarmer := d.reasoningForFarmer
    detectedSymptoms := d.detectedSymptoms
    visualEvidenceRegions := d.visualEvidenceRegions }

/-- The classify-score-commit cycle of `handleAnalysis` (index.tsx lines
253-279): on a classification failure the catch block runs and the
ledger is left untouched; on success the result is assembled, scored and
committed via `saveToHistory`. Returns the displayed result (if any)
and the new ledger state. -/
def handleAnalysis (uuid ts : String) (resp : OracleResponse)
    (history : List HistoryItem) :
    Option AnalysisResult × List HistoryItem :=
  match validateOracleResponse resp with
  | Except.error _ => (none, history)
  | Except.ok d =>
    let finalResult := mkRemoteResult uuid ts d
    (some finalResult, saveToHistory_v3 finalResult history)

/-- C3. A Remote Oracle response missing the required lesionCount field
is rejected with InvalidResponseSchema and the History Ledger is
unchanged; on any classification failure the ledger state is unchanged,
and the ledger is committed (together with the displayed result) exactly
when validation and scoring fully succeed. -/
theorem remote_failure_preserves_ledger (uuid ts : String)
    (resp : OracleResponse) (history : List HistoryItem) :
    (resp.lesionCount = none →
      validateOracleResponse resp =
        Except.error ClassificationError.invalidResponseSchema ∧
      handleAnalysis uuid ts resp history = (none, history)) ∧
    (∀ e, validateOracleResponse resp = Except.error e →
      handleAnalysis uuid ts resp history = (none, history)) ∧
    (∀ d, validateOracleResponse resp = Except.ok d →
      handleAnalysis uuid ts resp history =
        (some (mkRemoteResult uuid ts d),
         saveToHistory_v3 (mkRemoteResult uuid ts d) history)) := by
  refine ⟨?_, ?_, ?_⟩
  · intro hlc
    have herr : validateOracleResponse resp =
        Except.error ClassificationError.invalidResponseSchema := by
      obtain ⟨st, cf, lc, als, rf, ds, ver⟩ := resp
      simp only at hlc
      subst hlc
      rcases st with _ | s <;> rcases cf with _ | c <;>
        simp [validateOracleResponse]
    refine ⟨herr, ?_⟩
    unfold handleAnalysis
    rw [herr]
  · intro e he
    unfold handleAnalysis
    rw [he]
  · intro d hd
    unfold handleAnalysis
    rw [hd]

/-- A concrete oracle response missing only lesionCount. -/
def respMissingLesionCount : OracleResponse :=
  { stage := some "E2"
    confidence := some 0.8
    lesionCount := none
    avgLesionSize := some 6
    reasoningForFarmer := some "spots observed"
    detectedSymptoms := some ["Large brown lesions"]
    visualEvidenceRegions := some "center" }

/-- Witness for C3 at a concrete response missing lesionCount. -/
theorem remote_failure_preserves_ledger_witness :
    validateOracleResponse respMissingLesionCount =
      Except.error ClassificationError.invalidResponseSchema ∧
    handleAnalysis "u" "t" respMissingLesionCount [] = (none, []) :=
  (remote_failure_preserves_ledger "u" "t" respMissingLesionCount []).1 rfl

/-- C7. The Knowledge Base lookup is total: each of the five stage codes
returns its (non-null) DiseaseInfo entry, and every unrecognized stage
code falls back to the N0 entry instead of failing. -/
theorem knowledge_base_total_lookup :
    (lookupDisease "H0" = h0Info ∧ lookupDisease "E1" = e1Info ∧
     lookupDisease "E2" = e2Info ∧ lookupDisease "E3" = e3Info ∧
     lookupDisease "N0" = n0Info) ∧
    ∀ s : String, s ∉ ["H0", "E1", "E2", "E3", "N0"] →
      lookupDisease s = n0Info := by
  constructor
  · refine ⟨?_, ?_, ?_, ?_, ?_⟩ <;> rfl
  · intro s hs
    simp only [List.mem_cons, List.not_mem_nil, or_false, not_or] at hs
    obtain ⟨h1, h2, h3, h4, h5⟩ := hs
    have b1 : (s == "H0") = false := beq_eq_false_iff_ne.mpr h1
    have b2 : (s == "E1") = false := beq_eq_false_iff_ne.mpr h2
    have b3 : (s == "E2") = false := beq_eq_false_iff_ne.mpr h3
    have b4 : (s == "E3") = false := beq_eq_false_iff_ne.mpr h4
    have b5 : (s == "N0") = false := beq_eq_false_iff_ne.mpr h5
    simp [lookupDisease, DISEASE_DATABASE, List.lookup, b1, b2, b3, b4, b5]

/-- Witness for C7 at the unrecognized stage code XX. -/
theorem knowledge_base_total_lookup_witness :
    lookupDisease "XX" = n0Info :=
  knowledge_base_total_lookup.2 "XX" (by decide)

/-- The `HistoryItem` of the self-contained local variant (constants.tsx
lines 283-289): no confidence field. -/
structure LocalHistoryItem where
  id : String
  timestamp : String
  stage : DiseaseStage
  diseaseName : String
  severityScore : ℚ
  deriving DecidableEq, Repr

/-- The `newItem` projection of the local variant `saveToHistory`
(constants.tsx lines 448-454). -/
def toLocalHistoryItem (res : LocalAnalysisResult) : LocalHistoryItem :=
  { id := res.id
    timestamp := res.timestamp
    stage := res.stage
    diseaseName := res.disease.name
    severityScore := res.severityScore }

/-- Ledger append of the local variant (constants.tsx lines 447-458),
capacity 15: `const updated = [newItem, ...history].slice(0, 15)`. -/
def saveToHistory_local (res : LocalAnalysisResult)
    (history : List LocalHistoryItem) : List LocalHistoryItem :=
  (toLocalHistoryItem res :: history).take 15

/-- The ledger effect of `runLocalScan` (constants.tsx lines 484-491):
`if (data.stage !== N0-code) saveToHistory(data)` — an N0 result is
displayed but never committed. -/
def runLocalScanLedger (data : LocalAnalysisResult)
    (history : List LocalHistoryItem) : List LocalHistoryItem :=
  if data.stage ≠ DiseaseStage.N0 then saveToHistory_local data history
  else history

/-- C6. Under the local variant ledger policy, committing a diagnosis
whose stage is N0 leaves the History Ledger unchanged, and a result
whose stage differs from N0 is appended via the capped save. -/
theorem local_ledger_skips_n0 (data : LocalAnalysisResult)
    (history : List LocalHistoryItem) :
    (data.stage = DiseaseStage.N0 →
      runLocalScanLedger data history = history) ∧
    (data.stage ≠ DiseaseStage.N0 →
      runLocalScanLedger data history = saveToHistory_local data history) := by
  constructor
  · intro h
    unfold runLocalScanLedger
    rw [if_neg]
    simp [h]
  · intro h
    unfold runLocalScanLedger
    rw [if_pos h]

/-- A concrete N0 local result for the C6 witness. -/
def sampleLocalN0Result : LocalAnalysisResult :=
  { id := "id-2"
    stage := DiseaseStage.N0
    confidence := 0.4
    disease := localDiseaseDatabase DiseaseStage.N0
    lesionCount := 0
    severityScore := 0
    timestamp := "2026-01-02"
    reasoning := "Insufficient green tissue detected. Image may be obscured or too far away." }

/-- Witness for C6: committing a concrete N0 diagnosis leaves the ledger
unchanged. -/
theorem local_ledger_skips_n0_witness :
    runLocalScanLedger sampleLocalN0Result [] = [] :=
  (local_ledger_skips_n0 sampleLocalN0Result []).1 rfl

end PhytoScan
